import Mathlib

/-!
Verification of the node-resolve rollup plugin (`packages/node-resolve/src/index.js`).

The development is a shallow embedding of the plugin's resolution engine:

* external collaborators (the `resolve` library, Node's `path` and `fs`
  primitives, the builtin-module list) are parameters, collected in `Env`;
* the plugin's configuration surface is `Options`;
* the values captured by the `packageFilter` callback during one resolution
  (`hasPackageEntry`, `packageBrowserField`, `hasModuleSideEffects`) are
  collected in `PFState`;
* asynchronous promise chains are embedded as sequential computations in
  `Except RErr`, with the terminal `.catch` made explicit;
* the promise-memoizing probe caches are embedded with explicit association
  list state (sequential semantics of the single-flight promise cache).
-/

set_option autoImplicit false

namespace NodeResolve

universe u

/-- An error produced by a filesystem primitive or by the `resolve` library.
Only its `code` property is inspected by the plugin. -/
structure RErr where
  code : String
deriving DecidableEq, Repr

/-- Decidable equality of embedded fallible outcomes, used to evaluate the
model on concrete inputs. -/
instance exceptDecEq {ε α : Type u} [DecidableEq ε] [DecidableEq α] :
    DecidableEq (Except ε α) := fun a b =>
  match a, b with
  | .error e, .error f =>
    if h : e = f then .isTrue (by rw [h])
    else .isFalse (by intro hh; cases hh; exact h rfl)
  | .error _, .ok _ => .isFalse (by intro hh; cases hh)
  | .ok _, .error _ => .isFalse (by intro hh; cases hh)
  | .ok x, .ok y =>
    if h : x = y then .isTrue (by rw [h])
    else .isFalse (by intro hh; cases hh; exact h rfl)

/-- The result of `fs.stat`: the two predicates the plugin consults. -/
structure Stat where
  isFile : Bool
  isDirectory : Bool
deriving DecidableEq, Repr

/-- One value of a package's `browser` map: `false` (replace by the empty
stub) or a replacement path. -/
inductive BrowserVal where
  | stub
  | path (p : String)
deriving DecidableEq, Repr

/-- A package `browser` map, keyed by specifier or absolute path.
`none` models an absent key. -/
def BrowserMap : Type := String → Option BrowserVal

/-- The virtual empty-stub module id (`ES6_BROWSER_EMPTY` in the source). -/
def ES6_BROWSER_EMPTY : String := "\x00node-resolve:empty.js"

/-- Whether `p` is a prefix of `s`, over the character lists (the model of
JavaScript `s.indexOf(p) === 0` and of anchored prefix regexes). -/
def strStartsWith (s p : String) : Bool :=
  p.data.isPrefixOf s.data

/-- Splitting a string at every character satisfying `p`, over the
character lists; like JavaScript `String.prototype.split` with a
character-class regex, the result always has one (possibly empty) piece
per separator gap. -/
def splitCharsAux (p : Char → Bool) : List Char → List Char → List (List Char)
  | [], acc => [acc.reverse]
  | c :: cs, acc =>
    if p c then acc.reverse :: splitCharsAux p cs []
    else splitCharsAux p cs (c :: acc)

/-- `String`-level wrapper of `splitCharsAux`. -/
def strSplit (s : String) (p : Char → Bool) : List String :=
  (splitCharsAux p s.data []).map String.mk

/-- `/\0/.test(importee)`: whether the id contains the null character. -/
def containsNullChar (s : String) : Bool :=
  s.data.contains (Char.ofNat 0)

/-- External collaborators of the plugin, as used by `resolveId`:
the builtin-module set, Node path primitives, the `resolve` library
(`resolveIdAsync` with the request's `resolveOptions` already fixed),
and the filesystem primitives used after resolution. -/
structure Env where
  builtins : String → Bool
  pathResolve : String → String → String
  dirname : String → String
  resolveOne : String → Except RErr String
  fexists : String → Bool
  realpath : String → Except RErr String
  readFile : String → Except RErr String
  isModule : String → Bool

/-- The plugin configuration consulted during one `resolveId` call.
`preferBuiltinsOpt = none` models an unset `options.preferBuiltins`
(`isPreferBuiltinsSet` is `false` and the effective value defaults to
`true`).  `only` models the compiled pattern list (`null` when the option
is absent); a string pattern compiles to an anchored, escaped regular
expression, i.e. an exact match.  `jailNormalized` is
`normalize(options.jail.trim(sep))`, `none` when no jail is configured.
`preserveSymlinks` is the flag captured from the host in `buildStart`. -/
structure Options where
  rootDir : String
  shouldDedupe : String → Bool
  preferBuiltinsOpt : Option Bool
  useBrowserOverrides : Bool
  only : Option (List (String → Bool))
  jailNormalized : Option String
  modulesOnly : Bool
  preserveSymlinks : Bool

/-- The mutable locals of `resolveId` that the `packageFilter` callback of
the `resolve` library may overwrite while candidates are resolved; the
fields hold their values at the time the resolution promise settles
(initial values: `true`, `false`, `alwaysNull`). -/
structure PFState where
  hasPackageEntry : Bool
  packageBrowserField : Option BrowserMap
  hasModuleSideEffects : Option String → Option Bool

/-- The value `resolveId` hands back to the bundler: `null` (unhandled),
a plain id string (the empty-stub paths), or a `{ id, moduleSideEffects }`
record. -/
inductive ResolveResult where
  | unhandled
  | id (s : String)
  | record (rid : Option String) (sideEffects : Option Bool)
deriving DecidableEq, Repr

/-- The observable outcome of one `resolveId` call: the returned value and
whether `this.warn` was invoked. -/
structure ROut where
  result : ResolveResult
  warned : Bool
deriving DecidableEq, Repr

/-- JavaScript truthiness of a possibly-undefined string
(`undefined` and `""` are falsy). -/
def jsTruthy : Option String → Bool
  | none => false
  | some s => s != ""

/-- `builtins.has(resolved)` where `resolved` may be `undefined`. -/
def builtinsHasOpt (env : Env) : Option String → Bool
  | none => false
  | some s => env.builtins s

/-- Matching against the regular expression `/^\.?\.?\//`: an optional dot,
an optional dot, then a slash, anchored at the start.  A string matches
exactly when it starts with "/", "./" or "../". -/
def matchesRelAbsRegex (s : String) : Bool :=
  strStartsWith s "/" || strStartsWith s "./" || strStartsWith s "../"

/-- One `p.then((v) => { if (v) return v; return resolveIdAsync(list[i]); })`
step of `resolveImportSpecifiers`: a rejected chain stays rejected, a truthy
fulfilled value is kept, otherwise candidate `c` is resolved. -/
def thenStep (ro : String → Except RErr String) (p : Except RErr (Option String))
    (c : String) : Except RErr (Option String) :=
  match p with
  | .error e => .error e
  | .ok (some v) => if v = "" then (ro c).map some else .ok (some v)
  | .ok none => (ro c).map some

/-- The `.catch` attached to every non-final candidate: a
`MODULE_NOT_FOUND` rejection is swallowed (the chain fulfils with
`undefined`), every other rejection is re-thrown. -/
def catchMNF : Except RErr (Option String) → Except RErr (Option String)
  | .error e => if e.code = "MODULE_NOT_FOUND" then .ok none else .error e
  | p => p

/-- The loop of `resolveImportSpecifiers`: the accumulated chain `p` is
extended with a `thenStep` per candidate, and with `catchMNF` for every
candidate except the last. -/
def risGo (ro : String → Except RErr String) (p : Except RErr (Option String)) :
    List String → Except RErr (Option String)
  | [] => p
  | [c] => thenStep ro p c
  | c :: c2 :: rest => risGo ro (catchMNF (thenStep ro p c)) (c2 :: rest)

/-- `resolveImportSpecifiers(importSpecifierList, resolveOptions)`: resolve
the candidates in order; the promise resolves to the first module that
resolves successfully, or to the error of the last attempted resolution. -/
def resolveImportSpecifiers (ro : String → Except RErr String) (l : List String) :
    Except RErr (Option String) :=
  risGo ro (.ok none) l

/-- The candidate list built by `resolveId` (lines 381-405): the `./`
root-shorthand candidate when there is no importer and the first character
of the importee does not match `/^\.?\.?\//`, then the `importee + "/"`
builtin-forcing candidate, then the literal importee. -/
def importSpecifierList (importer : Option String) (importee : String)
    (importeeIsBuiltin preferBuiltins isPreferBuiltinsSet : Bool) : List String :=
  (if importer = none ∧ ¬ matchesRelAbsRegex (String.singleton importee.front) then
    ["./" ++ importee]
  else []) ++
  (if importeeIsBuiltin ∧ (¬ preferBuiltins ∨ ¬ isPreferBuiltinsSet) then
    [importee ++ "/"]
  else []) ++
  [importee]

/-- The effective base directory of a request (line 320):
`!importer || shouldDedupe(importee) ? rootDir : dirname(importer)`. -/
def basedirOf (env : Env) (opts : Options) (importee : String)
    (importer : Option String) : String :=
  match importer with
  | none => opts.rootDir
  | some imp => if opts.shouldDedupe importee then opts.rootDir else env.dirname imp

/-- The id the `only` allow-list is matched against (lines 339-348): the
first path segment of the importee, extended to two segments for scoped
packages, or the absolute resolution of a relative importee. -/
def resolvedPackageId (env : Env) (basedir importee : String) : String :=
  match strSplit importee (fun c => c == '/' || c == '\\') with
  | [] => importee
  | id0 :: rest =>
    if strStartsWith id0 "@" ∧ rest ≠ [] then id0 ++ "/" ++ rest.headD ""
    else if strStartsWith id0 "." then env.pathResolve basedir importee
    else id0

/-- `only && !only.some((pattern) => pattern.test(id))` (line 350). -/
def onlyBlocks : Option (List (String → Bool)) → String → Bool
  | some pats, id0 => ! pats.any (fun p => p id0)
  | none, _ => false

/-- The truthy payload of a browser-map entry (`false` and `""` are
falsy in JavaScript). -/
def bvTruthyPath : Option BrowserVal → Option String
  | some (BrowserVal.path p) => if p = "" then none else some p
  | _ => none

/-- The first truthy value of the lookup chain
`browser[importee] || browser[resolvedImportee] || browser[resolvedImportee + ".js"] || browser[resolvedImportee + ".json"]`
(lines 329-333). -/
def browserChain (browser : BrowserMap) (importee resolvedImportee : String) :
    Option String :=
  bvTruthyPath (browser importee) |>.orElse fun _ =>
  bvTruthyPath (browser resolvedImportee) |>.orElse fun _ =>
  bvTruthyPath (browser (resolvedImportee ++ ".js")) |>.orElse fun _ =>
  bvTruthyPath (browser (resolvedImportee ++ ".json"))

/-- The pre-resolution browser-map substitution (lines 323-337), applied
when browser overrides are active and the importer has a recorded browser
map.  `none` signals the early `return ES6_BROWSER_EMPTY`; `some s` is the
(possibly substituted) importee the rest of `resolveId` works with. -/
def preBrowserSubstitute (env : Env) (opts : Options) (bm : Option BrowserMap)
    (basedir importee : String) : Option String :=
  match bm with
  | none => some importee
  | some browser =>
    if opts.useBrowserOverrides then
      if browser importee = some BrowserVal.stub ∨
          browser (env.pathResolve basedir importee) = some BrowserVal.stub then
        none
      else
        match browserChain browser importee (env.pathResolve basedir importee) with
        | some p => some p
        | none => some importee
    else some importee

/-- The symlink-realization tail of the first `.then` (lines 422-426):
when the package has an entry and symlinks are not preserved, an existing
resolved path is replaced by its real path. -/
def symlinkStep (env : Env) (opts : Options) (pf : PFState) (r : Option String) :
    Except RErr (Option String) :=
  if pf.hasPackageEntry ∧ ¬ opts.preserveSymlinks ∧ jsTruthy r then
    match r with
    | some s => if env.fexists s then (env.realpath s).map some else .ok (some s)
    | none => .ok none
  else .ok r

/-- The first `.then` of the resolution promise (lines 410-428):
post-resolution browser-map substitution (a falsy map entry short-circuits
to the empty stub and skips symlink realization), then symlink
realization.  The `browserMapCache.set` calls are state writes that do not
affect the returned value. -/
def thenOne (env : Env) (opts : Options) (pf : PFState) (resolvedOpt : Option String) :
    Except RErr (Option String) :=
  match pf.packageBrowserField, resolvedOpt with
  | some browser, some r =>
    if r = "" then symlinkStep env opts pf (some r)
    else
      match browser r with
      | some (BrowserVal.path p) =>
        if p = "" then .ok (some ES6_BROWSER_EMPTY)
        else symlinkStep env opts pf (some p)
      | some BrowserVal.stub => .ok (some ES6_BROWSER_EMPTY)
      | none => symlinkStep env opts pf (some r)
  | _, _ => symlinkStep env opts pf resolvedOpt

/-- The tail of the second `.then` (lines 449-456): under `modulesOnly` a
truthy resolution is read and classified, otherwise the
`{ id, moduleSideEffects }` record is produced. -/
def finalStep (env : Env) (opts : Options) (pf : PFState) (resolved : Option String) :
    Except RErr ROut :=
  match resolved with
  | some r =>
    if r ≠ "" ∧ opts.modulesOnly then
      (env.readFile r).map fun code =>
        if env.isModule code then
          ⟨.record (some r) (pf.hasModuleSideEffects (some r)), false⟩
        else ⟨.unhandled, false⟩
    else .ok ⟨.record (some r) (pf.hasModuleSideEffects (some r)), false⟩
  | none => .ok ⟨.record none (pf.hasModuleSideEffects none), false⟩

/-- The second `.then` of the resolution promise (lines 429-457): the
builtin-preference decisions, the advisory warning, the jail check
(`resolved.indexOf(normalize(jail.trim(sep))) !== 0`, i.e. the normalized
jail must be a string prefix of the resolved path; accessing `.indexOf`
on an undefined resolution would reject the promise), then `finalStep`.
The `idToPackageInfo.set` call is a state write that does not affect the
returned value. -/
def thenTwo (env : Env) (opts : Options) (pf : PFState) (importeeIsBuiltin : Bool)
    (resolved : Option String) : Except RErr ROut :=
  if pf.hasPackageEntry then
    if builtinsHasOpt env resolved ∧ opts.preferBuiltinsOpt.getD true ∧
        opts.preferBuiltinsOpt.isSome then
      .ok ⟨.unhandled, false⟩
    else if importeeIsBuiltin ∧ opts.preferBuiltinsOpt.getD true then
      .ok ⟨.unhandled, ! opts.preferBuiltinsOpt.isSome⟩
    else
      match opts.jailNormalized, resolved with
      | some nj, some r =>
        if ¬ strStartsWith r nj then .ok ⟨.unhandled, false⟩
        else finalStep env opts pf resolved
      | some _, none => .error ⟨"ERR_UNDEFINED_INDEXOF"⟩
      | none, _ => finalStep env opts pf resolved
  else finalStep env opts pf resolved

/-- The resolution pipeline from `resolveImportSpecifiers` on (lines
406-458), with the terminal `.catch(() => null)` made explicit: any
rejection of the chain is converted to the unhandled result. -/
def runResolve (env : Env) (opts : Options) (pf : PFState) (specList : List String)
    (importeeIsBuiltin : Bool) : ROut :=
  match (do
      let r0 ← resolveImportSpecifiers env.resolveOne specList
      let r1 ← thenOne env opts pf r0
      thenTwo env opts pf importeeIsBuiltin r1 : Except RErr ROut) with
  | .ok out => out
  | .error _ => ⟨.unhandled, false⟩

/-- `resolveId` after the sentinel and null-character checks and the
pre-resolution browser substitution: the `only` allow-list gate, then the
candidate list and the resolution pipeline. -/
def resolveIdMain (env : Env) (opts : Options) (pf : PFState) (importee : String)
    (importer : Option String) (basedir : String) : ROut :=
  if onlyBlocks opts.only (resolvedPackageId env basedir importee) then
    ⟨.unhandled, false⟩
  else
    runResolve env opts pf
      (importSpecifierList importer importee (env.builtins importee)
        (opts.preferBuiltinsOpt.getD true) opts.preferBuiltinsOpt.isSome)
      (env.builtins importee)

/-- The body of `resolveId` past the two initial id checks. -/
def resolveIdAfterChecks (env : Env) (opts : Options) (pf : PFState)
    (bm : Option BrowserMap) (importee : String) (importer : Option String) : ROut :=
  match preBrowserSubstitute env opts bm (basedirOf env opts importee importer) importee with
  | none => ⟨.id ES6_BROWSER_EMPTY, false⟩
  | some importee2 =>
    resolveIdMain env opts pf importee2 importer (basedirOf env opts importee importer)

/-- The plugin's `resolveId` hook (lines 313-459).  `bm` is
`browserMapCache.get(importer)`: the browser map previously recorded
against the importer, if any. -/
def resolveId (env : Env) (opts : Options) (pf : PFState) (bm : Option BrowserMap)
    (importee : String) (importer : Option String) : ROut :=
  if importee = ES6_BROWSER_EMPTY then ⟨.id importee, false⟩
  else if containsNullChar importee then ⟨.unhandled, false⟩
  else resolveIdAfterChecks env opts pf bm importee importer

/-- The plugin's `load` hook (lines 461-466). -/
def load (importee : String) : Option String :=
  if importee = ES6_BROWSER_EMPTY then some "export default \x7b\x7d;" else none

/-- Lookup in an association list, modelling `Map.prototype.get`. -/
def lookupKey {α : Type u} (k : String) : List (String × α) → Option α
  | [] => none
  | (k2, v) :: rest => if k = k2 then some v else lookupKey k rest

/-- Sequential semantics of the promise-memoizing `cache` wrapper (lines
37-53): a hit returns the memoized value; a miss runs `fn` and stores a
fulfilled result, while a rejected result deletes the entry (it is stored
and immediately removed by the attached `.catch`) and propagates the
error.  Insertion position in the association list is immaterial because
an entry is only inserted on a miss. -/
def cachedCall {α : Type} (fn : String → Except RErr α)
    (st : List (String × α)) (param : String) :
    Except RErr α × List (String × α) :=
  match lookupKey param st with
  | some v => (.ok v, st)
  | none =>
    match fn param with
    | .ok v => (.ok v, (param, v) :: st)
    | .error e => (.error e, st)

/-- `ignoreENOENT` (lines 55-58): an `ENOENT` failure becomes the negative
result `false`, every other failure is re-thrown. -/
def ignoreENOENT (e : RErr) : Except RErr Bool :=
  if e.code = "ENOENT" then .ok false else .error e

/-- The underlying probe of `isFileCached`:
`statAsync(file).then((stat) => stat.isFile(), ignoreENOENT)`. -/
def statIsFile (statFn : String → Except RErr Stat) (file : String) : Except RErr Bool :=
  match statFn file with
  | .ok st => .ok st.isFile
  | .error e => ignoreENOENT e

/-- The underlying probe of `isDirCached`:
`statAsync(file).then((stat) => stat.isDirectory(), ignoreENOENT)`. -/
def statIsDir (statFn : String → Except RErr Stat) (file : String) : Except RErr Bool :=
  match statFn file with
  | .ok st => .ok st.isDirectory
  | .error e => ignoreENOENT e

/-- `isFileCached` (line 66), with the probe-cache state explicit. -/
def isFileCached (statFn : String → Except RErr Stat)
    (st : List (String × Bool)) (file : String) :
    Except RErr Bool × List (String × Bool) :=
  cachedCall (statIsFile statFn) st file

/-- `isDirCached` (lines 62-64), with the probe-cache state explicit. -/
def isDirCached (statFn : String → Except RErr Stat)
    (st : List (String × Bool)) (file : String) :
    Except RErr Bool × List (String × Bool) :=
  cachedCall (statIsDir statFn) st file

/-- The build-scoped caches of one plugin instance: the three module-level
probe caches and the Manifest Interpreter's per-manifest-path cache
(`packageInfoCache`, whose payload type is abstract here). -/
structure PluginCaches (π : Type u) where
  readFileCache : List (String × String)
  isFileCache : List (String × Bool)
  isDirCache : List (String × Bool)
  packageInfoCache : List (String × π)

/-- The plugin's `generateBundle` hook (lines 307-311): it clears exactly
`readFileCached`, `isFileCached` and `isDirCached`. -/
def generateBundle {π : Type u} (c : PluginCaches π) : PluginCaches π :=
  { c with readFileCache := [], isFileCache := [], isDirCache := [] }

/-- Follows the spec's words for the jail claim: a path lies inside the
directory subtree rooted at `r` iff it is `r` itself or extends `r` past a
path separator. -/
def specSubtree (r p : String) : Bool :=
  p == r || strStartsWith p (r ++ "/")

/-! ## Fixtures used by witnesses and counterexamples -/

/-- A concrete outcome function for the underlying `resolve` library. -/
def roW : String → Except RErr String := fun s =>
  if s = "b" then .ok "/pkg/b"
  else if s = "q" ∨ s = "acc" then .error { code := "EACCES" }
  else if s = "fs" then .ok "fs"
  else if s = "fs/" then .ok "/proj/node_modules/fs/index.js"
  else if s = "pkgx" then .ok "/foobar/x"
  else if s = "inj" then .ok "/foo/lib/inj.js"
  else .error { code := "MODULE_NOT_FOUND" }

/-- A concrete external environment. -/
def envW : Env :=
  { builtins := fun s => s == "fs"
    pathResolve := fun b p => b ++ "/" ++ p
    dirname := fun _ => "/proj/src"
    resolveOne := roW
    fexists := fun _ => false
    realpath := fun s => .ok s
    readFile := fun _ => .error { code := "ENOENT" }
    isModule := fun _ => true }

/-- A concrete default-like configuration. -/
def optsW : Options :=
  { rootDir := "/proj"
    shouldDedupe := fun _ => false
    preferBuiltinsOpt := none
    useBrowserOverrides := false
    only := none
    jailNormalized := none
    modulesOnly := false
    preserveSymlinks := true }

/-- A concrete `packageFilter` outcome with a package entry and no browser
field. -/
def pfW : PFState :=
  { hasPackageEntry := true
    packageBrowserField := none
    hasModuleSideEffects := fun _ => none }

/-- A concrete browser map sending the specifier `foo` to `false`. -/
def bmapW : BrowserMap := fun s =>
  if s = "foo" then some BrowserVal.stub else none

/-! ## Helper lemmas on the fallback orchestrator -/

/-- Once the chain has fulfilled with a truthy value, every later candidate
step keeps it. -/
theorem risGo_ok_absorb (ro : String → Except RErr String) (v : String) (hv : v ≠ "") :
    ∀ l : List String, risGo ro (.ok (some v)) l = .ok (some v) := by
  intro l
  induction l with
  | nil => rfl
  | cons c t ih =>
    cases t with
    | nil => simp [risGo, thenStep, hv]
    | cons c2 r => simpa [risGo, thenStep, catchMNF, hv] using ih

/-- A candidate that resolves to a truthy value settles the whole chain. -/
theorem ris_cons_ok (ro : String → Except RErr String) (a : String) (rest : List String)
    (v : String) (ha : ro a = .ok v) (hv : v ≠ "") :
    resolveImportSpecifiers ro (a :: rest) = .ok (some v) := by
  cases rest with
  | nil => simp [resolveImportSpecifiers, risGo, thenStep, ha, Except.map]
  | cons b r =>
    simpa [resolveImportSpecifiers, risGo, thenStep, catchMNF, ha, Except.map]
      using risGo_ok_absorb ro v hv (b :: r)

/-- A non-final candidate failing with `MODULE_NOT_FOUND` is suppressed and
resolution continues with the remaining candidates. -/
theorem ris_cons_mnf (ro : String → Except RErr String) (a : String) (rest : List String)
    (ha : ro a = .error { code := "MODULE_NOT_FOUND" }) (hne : rest ≠ []) :
    resolveImportSpecifiers ro (a :: rest) = resolveImportSpecifiers ro rest := by
  cases rest with
  | nil => exact absurd rfl hne
  | cons b r =>
    simp [resolveImportSpecifiers, risGo, thenStep, catchMNF, ha, Except.map]

/-- A single-candidate list resolves exactly as that candidate does. -/
theorem ris_singleton (ro : String → Except RErr String) (a : String) :
    resolveImportSpecifiers ro [a] = (ro a).map some := by
  simp [resolveImportSpecifiers, risGo, thenStep]

/-- A rejection whose code is not `MODULE_NOT_FOUND` is never revived by the
per-candidate catches. -/
theorem risGo_error_absorb (ro : String → Except RErr String) (e : RErr)
    (he : e.code ≠ "MODULE_NOT_FOUND") :
    ∀ l : List String, risGo ro (.error e) l = .error e := by
  intro l
  induction l with
  | nil => rfl
  | cons c t ih =>
    cases t with
    | nil => simp [risGo, thenStep]
    | cons c2 r => simpa [risGo, thenStep, catchMNF, he] using ih

/-- A candidate failing with any code other than `MODULE_NOT_FOUND` rejects
the whole chain at once, whether or not it is the last candidate. -/
theorem ris_cons_fault (ro : String → Except RErr String) (a : String) (rest : List String)
    (e : RErr) (ha : ro a = .error e) (he : e.code ≠ "MODULE_NOT_FOUND") :
    resolveImportSpecifiers ro (a :: rest) = .error e := by
  cases rest with
  | nil => simp [resolveImportSpecifiers, risGo, thenStep, ha, Except.map]
  | cons b r =>
    simpa [resolveImportSpecifiers, risGo, thenStep, catchMNF, ha, he, Except.map]
      using risGo_error_absorb ro e he (b :: r)

/-! ## Claims -/

/-- C1: candidates are driven strictly in list order; the first candidate
that resolves successfully settles the request and the outcomes of all
later candidates are irrelevant (they are never attempted); a
`MODULE_NOT_FOUND` failure of any non-final candidate is suppressed; when
every attempted candidate fails (each non-final one with
`MODULE_NOT_FOUND`), the failure of the last candidate is the outcome of
the whole request. -/
theorem fallback_first_success_last_failure :
    (∀ (ro : String → Except RErr String) (l1 : List String) (c : String)
        (l2 : List String) (v : String),
      (∀ x ∈ l1, ro x = .error { code := "MODULE_NOT_FOUND" }) →
      ro c = .ok v → v ≠ "" →
      resolveImportSpecifiers ro (l1 ++ c :: l2) = .ok (some v))
    ∧ (∀ (ro : String → Except RErr String) (l1 : List String) (cl : String) (e : RErr),
      (∀ x ∈ l1, ro x = .error { code := "MODULE_NOT_FOUND" }) →
      ro cl = .error e →
      resolveImportSpecifiers ro (l1 ++ [cl]) = .error e) := by
  constructor
  · intro ro l1 c l2 v h1 hc hv
    induction l1 with
    | nil => simpa using ris_cons_ok ro c l2 v hc hv
    | cons a t ih =>
      rw [List.cons_append, ris_cons_mnf ro a (t ++ c :: l2) (h1 a (by simp)) (by simp)]
      exact ih fun x hx => h1 x (by simp [hx])
  · intro ro l1 cl e h1 hcl
    induction l1 with
    | nil => simp [ris_singleton, hcl, Except.map]
    | cons a t ih =>
      rw [List.cons_append, ris_cons_mnf ro a (t ++ [cl]) (h1 a (by simp)) (by simp)]
      exact ih fun x hx => h1 x (by simp [hx])

/-- Witness for C1: with the concrete outcome function `roW`, the second
candidate of `["a", "b", "z"]` succeeds after the first fails with
`MODULE_NOT_FOUND`, and in `["a", "q"]` the failure of the last candidate
is the outcome. -/
theorem fallback_first_success_last_failure_w :
    resolveImportSpecifiers roW ["a", "b", "z"] = .ok (some "/pkg/b")
    ∧ resolveImportSpecifiers roW ["a", "q"] = .error { code := "EACCES" } :=
  ⟨fallback_first_success_last_failure.1 roW ["a"] "b" ["z"] "/pkg/b"
      (by decide) (by decide) (by decide),
    fallback_first_success_last_failure.2 roW ["a"] "q" { code := "EACCES" }
      (by decide) (by decide)⟩

/-- A stat oracle that always fails with `ENOENT`. -/
def statEnoW : String → Except RErr Stat := fun _ => .error { code := "ENOENT" }

/-- A stat oracle that always fails with `EACCES`. -/
def statAccW : String → Except RErr Stat := fun _ => .error { code := "EACCES" }

/-- A stat oracle that always reports a plain file. -/
def statOkW : String → Except RErr Stat := fun _ => .ok ⟨true, false⟩

/-- C3: on a cache miss, an underlying `ENOENT` failure of the stat probes
yields the negative result `false` and that negative result is memoized;
any other underlying failure is propagated and leaves the cache unchanged,
so a subsequent probe of the same path re-runs the (possibly different)
underlying operation; a successful probe is memoized and a subsequent
probe returns the memoized value without consulting the new oracle. -/
theorem probe_cache_enoent_and_retry
    (statFn statFn2 : String → Except RErr Stat) (st : List (String × Bool))
    (file : String) (hmiss : lookupKey file st = none) :
    (statFn file = .error { code := "ENOENT" } →
      isFileCached statFn st file = (.ok false, (file, false) :: st)
      ∧ isDirCached statFn st file = (.ok false, (file, false) :: st))
    ∧ (∀ e : RErr, statFn file = .error e → e.code ≠ "ENOENT" →
      isFileCached statFn st file = (.error e, st)
      ∧ (isFileCached statFn2 (isFileCached statFn st file).2 file).1
          = statIsFile statFn2 file)
    ∧ (∀ s : Stat, statFn file = .ok s →
      isFileCached statFn st file = (.ok s.isFile, (file, s.isFile) :: st)
      ∧ (isFileCached statFn2 (isFileCached statFn st file).2 file).1
          = .ok s.isFile) := by
  refine ⟨?_, ?_, ?_⟩
  · intro h
    constructor <;>
      simp [isFileCached, isDirCached, cachedCall, statIsFile, statIsDir,
        ignoreENOENT, h, hmiss]
  · intro e h he
    have h1 : isFileCached statFn st file = (.error e, st) := by
      simp [isFileCached, cachedCall, statIsFile, ignoreENOENT, h, hmiss, he]
    refine ⟨h1, ?_⟩
    rw [h1]
    simp only [isFileCached, cachedCall, hmiss]
    cases h2 : statIsFile statFn2 file <;> simp [h2]
  · intro s h
    have h1 : isFileCached statFn st file = (.ok s.isFile, (file, s.isFile) :: st) := by
      simp [isFileCached, cachedCall, statIsFile, h, hmiss]
    refine ⟨h1, ?_⟩
    rw [h1]
    simp [isFileCached, cachedCall, lookupKey]

/-- Witness for C3 at the concrete path `/f`: `ENOENT` is converted to a
memoized `false` for both probes, an `EACCES` failure propagates and is
re-run against a fresh oracle, and a successful probe is memoized. -/
theorem probe_cache_enoent_and_retry_w :
    (isFileCached statEnoW [] "/f" = (.ok false, [("/f", false)])
      ∧ isDirCached statEnoW [] "/f" = (.ok false, [("/f", false)]))
    ∧ (isFileCached statAccW [] "/f" = (.error { code := "EACCES" }, [])
      ∧ (isFileCached statOkW (isFileCached statAccW [] "/f").2 "/f").1
          = statIsFile statOkW "/f")
    ∧ (isFileCached statOkW [] "/f" = (.ok true, [("/f", true)])
      ∧ (isFileCached statOkW (isFileCached statOkW [] "/f").2 "/f").1 = .ok true) :=
  ⟨(probe_cache_enoent_and_retry statEnoW statEnoW [] "/f" rfl).1 (by decide),
    (probe_cache_enoent_and_retry statAccW statOkW [] "/f" rfl).2.1
      { code := "EACCES" } (by decide) (by decide),
    (probe_cache_enoent_and_retry statOkW statOkW [] "/f" rfl).2.2
      ⟨true, false⟩ (by decide)⟩

/-- Counterexample for C5: after `generateBundle`, the Manifest
Interpreter's per-manifest-path cache (`packageInfoCache`) still holds the
entry recorded during the pass, so not every build-scoped cache is
cleared. -/
theorem generateBundle_keeps_manifest_cache_cx :
    generateBundle (⟨[("/a", "x")], [("/b", true)], [("/c", false)],
        [("/p/package.json", "info")]⟩ : PluginCaches String)
      = ⟨[], [], [], [("/p/package.json", "info")]⟩
    ∧ (generateBundle (⟨[("/a", "x")], [("/b", true)], [("/c", false)],
        [("/p/package.json", "info")]⟩ : PluginCaches String)).packageInfoCache
      ≠ [] :=
  ⟨rfl, by decide⟩

/-- C5 amended: at the end of each output-generation pass,
`generateBundle` fully clears the three filesystem probe caches
(read-file, is-file, is-directory); the Manifest Interpreter's
per-manifest-path cache is not cleared and survives into the next pass. -/
theorem generateBundle_clears_probe_caches {π : Type u} (c : PluginCaches π) :
    (generateBundle c).readFileCache = []
    ∧ (generateBundle c).isFileCache = []
    ∧ (generateBundle c).isDirCache = []
    ∧ (generateBundle c).packageInfoCache = c.packageInfoCache :=
  ⟨rfl, rfl, rfl, rfl⟩

/-- C7: the root-shorthand guard tests only the first character of the
importee against `/^\.?\.?\//` (a one-character string can only match by
being `/`), so for a graph-root request the `./` candidate is prepended
for every importee that does not start with `/` — including importees
that already start with `./` or `../`, although the whole importee does
match the relative-path pattern the code's comment appeals to. -/
theorem root_shorthand_prepended_for_relative_specifiers :
    importSpecifierList none "./x" false true false = ["././x", "./x"]
    ∧ importSpecifierList none "../x" false true false = ["./../x", "../x"]
    ∧ importSpecifierList none "/x" false true false = ["/x"]
    ∧ importSpecifierList none "x" false true false = ["./x", "x"]
    ∧ matchesRelAbsRegex "./x" = true
    ∧ matchesRelAbsRegex "../x" = true := by decide

/-- When the settled resolution carries no browser field, the first `.then`
leaves a nonempty benignly-realpathed resolution unchanged. -/
theorem thenOne_plain (env : Env) (opts : Options) (pf : PFState) (s : String)
    (hpbf : pf.packageBrowserField = none) (hs : s ≠ "")
    (hrl : env.realpath s = .ok s) :
    thenOne env opts pf (some s) = .ok (some s) := by
  cases hps : opts.preserveSymlinks <;> cases hfx : env.fexists s <;>
    simp [thenOne, hpbf, symlinkStep, jsTruthy, bne_iff_ne, hs, hps, hfx, hrl,
      Except.map]

/-- The root-shorthand candidate, when present, contributes only a
suppressed `MODULE_NOT_FOUND` attempt before the remaining candidates. -/
theorem ris_pre_opt (ro : String → Except RErr String) (importee : String)
    (rest : List String) (imp : Option String)
    (hdot : ro ("./" ++ importee) = .error { code := "MODULE_NOT_FOUND" })
    (hne : rest ≠ []) :
    resolveImportSpecifiers ro
      ((if imp = none ∧ matchesRelAbsRegex (String.singleton importee.front) = false
          then ["./" ++ importee]
        else []) ++ rest)
      = resolveImportSpecifiers ro rest := by
  by_cases h : imp = none ∧ matchesRelAbsRegex (String.singleton importee.front) = false
  · rw [if_pos h, List.singleton_append]
    exact ris_cons_mnf ro _ rest hdot hne
  · rw [if_neg h, List.nil_append]

/-- C10: every importee containing the null character, other than the
empty-stub sentinel itself, is left unhandled by `resolveId` for every
importer, configuration and inherited browser map. -/
theorem null_char_ids_left_unhandled (env : Env) (opts : Options) (pf : PFState)
    (bm : Option BrowserMap) (importee : String) (imp : Option String)
    (hnull : containsNullChar importee = true)
    (hne : importee ≠ ES6_BROWSER_EMPTY) :
    resolveId env opts pf bm importee imp = ⟨.unhandled, false⟩ := by
  simp [resolveId, hne, hnull]

/-- Witness for C10 at a null-prefixed proxy id of another plugin. -/
theorem null_char_ids_left_unhandled_w :
    resolveId envW optsW pfW none "\x00commonjs-proxy:/x" none
      = ⟨.unhandled, false⟩ :=
  null_char_ids_left_unhandled envW optsW pfW none "\x00commonjs-proxy:/x" none
    (by decide) (by decide)

/-- C8: the virtual empty-stub id is the fixed constant
`\0node-resolve:empty.js`, which contains a null character and hence names
no real path; `resolveId` maps it to itself; with browser overrides
active, an importee the importer's browser map sends to `false` resolves
to the stub id; and `load` serves the fixed empty-module payload for the
stub id. -/
theorem empty_stub_invariants :
    (ES6_BROWSER_EMPTY = "\x00node-resolve:empty.js"
      ∧ containsNullChar ES6_BROWSER_EMPTY = true
      ∧ load ES6_BROWSER_EMPTY = some "export default \x7b\x7d;")
    ∧ (∀ (env : Env) (opts : Options) (pf : PFState) (bm : Option BrowserMap)
        (imp : Option String),
        resolveId env opts pf bm ES6_BROWSER_EMPTY imp
          = ⟨.id ES6_BROWSER_EMPTY, false⟩)
    ∧ (∀ (env : Env) (opts : Options) (pf : PFState) (bmap : BrowserMap)
        (importee : String) (imp : Option String),
        opts.useBrowserOverrides = true →
        bmap importee = some BrowserVal.stub →
        importee ≠ ES6_BROWSER_EMPTY → containsNullChar importee = false →
        resolveId env opts pf (some bmap) importee imp
          = ⟨.id ES6_BROWSER_EMPTY, false⟩) := by
  refine ⟨⟨rfl, by decide, rfl⟩, ?_, ?_⟩
  · intro env opts pf bm imp
    simp [resolveId]
  · intro env opts pf bmap importee imp hub hstub hne hnn
    simp [resolveId, hne, hnn, resolveIdAfterChecks, preBrowserSubstitute, hub, hstub]

/-- Witness for C8: a browser map sending `foo` to `false` resolves `foo`
to the stub id, and the stub id resolves to itself. -/
theorem empty_stub_invariants_w :
    resolveId envW { optsW with useBrowserOverrides := true } pfW (some bmapW) "foo"
        (some "/x.js")
      = ⟨.id ES6_BROWSER_EMPTY, false⟩
    ∧ resolveId envW optsW pfW none ES6_BROWSER_EMPTY none
      = ⟨.id ES6_BROWSER_EMPTY, false⟩ :=
  ⟨empty_stub_invariants.2.2 envW { optsW with useBrowserOverrides := true } pfW
      bmapW "foo" (some "/x.js") rfl (by decide) (by decide) (by decide),
    empty_stub_invariants.2.1 envW optsW pfW none none⟩

/-- C9: with `only` configured, a request whose resolved package name
matches no pattern is left unhandled; a request whose resolved package
name matches some pattern proceeds to the normal resolution pipeline; and
the id the patterns are matched against is the resolved package name,
two-segment for scoped specifiers. -/
theorem only_allowlist_gate (env : Env) (opts : Options) (pf : PFState)
    (importee : String) (imp : Option String) (pats : List (String → Bool))
    (hne : importee ≠ ES6_BROWSER_EMPTY) (hnn : containsNullChar importee = false)
    (honly : opts.only = some pats) :
    (pats.any
        (fun p => p (resolvedPackageId env (basedirOf env opts importee imp) importee))
        = false →
      resolveId env opts pf none importee imp = ⟨.unhandled, false⟩)
    ∧ (pats.any
        (fun p => p (resolvedPackageId env (basedirOf env opts importee imp) importee))
        = true →
      resolveId env opts pf none importee imp
        = runResolve env opts pf
            (importSpecifierList imp importee (env.builtins importee)
              (opts.preferBuiltinsOpt.getD true) opts.preferBuiltinsOpt.isSome)
            (env.builtins importee))
    ∧ resolvedPackageId env (basedirOf env opts importee imp) "@scope/pkg/sub/path.js"
        = "@scope/pkg" := by
  refine ⟨?_, ?_, rfl⟩
  · intro hno
    simp [resolveId, hne, hnn, resolveIdAfterChecks, preBrowserSubstitute,
      resolveIdMain, onlyBlocks, honly, hno]
  · intro hyes
    simp [resolveId, hne, hnn, resolveIdAfterChecks, preBrowserSubstitute,
      resolveIdMain, onlyBlocks, honly, hyes]

/-- A concrete `only` pattern list: the compiled form of `only: ["mypkg"]`
(an anchored, escaped regular expression, i.e. an exact match). -/
def patsW : List (String → Bool) := [fun s => s == "mypkg"]

/-- Witness for C9: under `only: ["mypkg"]`, the specifier `other` is left
unhandled while `mypkg` proceeds to the resolution pipeline. -/
theorem only_allowlist_gate_w :
    resolveId envW { optsW with only := some patsW } pfW none "other" (some "/a/b.js")
      = ⟨.unhandled, false⟩
    ∧ resolveId envW { optsW with only := some patsW } pfW none "mypkg" (some "/a/b.js")
      = runResolve envW { optsW with only := some patsW } pfW
          (importSpecifierList (some "/a/b.js") "mypkg" (envW.builtins "mypkg")
            (({ optsW with only := some patsW } : Options).preferBuiltinsOpt.getD true)
            ({ optsW with only := some patsW } : Options).preferBuiltinsOpt.isSome)
          (envW.builtins "mypkg") :=
  ⟨(only_allowlist_gate envW { optsW with only := some patsW } pfW "other"
        (some "/a/b.js") patsW (by decide) (by decide) rfl).1 (by decide),
    (only_allowlist_gate envW { optsW with only := some patsW } pfW "mypkg"
        (some "/a/b.js") patsW (by decide) (by decide) rfl).2.1 (by decide)⟩

/-- Counterexample for C4: a permissions-style failure (`EACCES`) of the
underlying resolution does not reach the caller as a fault — the terminal
`.catch(() => null)` of `resolveId` converts it into the unhandled (null)
result. -/
theorem io_fault_swallowed_cx :
    envW.resolveOne "acc" = .error { code := "EACCES" }
    ∧ resolveId envW optsW pfW none "acc" (some "/a/b.js") = ⟨.unhandled, false⟩ :=
  ⟨by decide, by decide⟩

/-- C4 amended: a filesystem fault whose code is not `MODULE_NOT_FOUND`
propagates out of the candidate fallback chain without being suppressed
(whatever candidates follow), but the terminal catch of `resolveId` then
converts every resolution failure into the unhandled (null) result, so
the fault never reaches the caller. -/
theorem io_fault_propagates_to_terminal_catch
    (env : Env) (opts : Options) (pf : PFState) (importee imp : String) (e : RErr)
    (he : e.code ≠ "MODULE_NOT_FOUND")
    (hres : env.resolveOne importee = .error e)
    (hne : importee ≠ ES6_BROWSER_EMPTY) (hnn : containsNullChar importee = false)
    (hnb : env.builtins importee = false)
    (honly : opts.only = none) :
    (∀ rest : List String,
      resolveImportSpecifiers env.resolveOne (importee :: rest) = .error e)
    ∧ resolveId env opts pf none importee (some imp) = ⟨.unhandled, false⟩ := by
  constructor
  · intro rest
    exact ris_cons_fault env.resolveOne importee rest e hres he
  · simp [resolveId, hne, hnn, resolveIdAfterChecks, preBrowserSubstitute,
      resolveIdMain, onlyBlocks, honly, runResolve, importSpecifierList, hnb,
      ris_singleton, hres, Except.map, Bind.bind, Except.bind]

/-- Witness for C4's amended claim: an `EACCES` failure survives the
fallback chain past later candidates but the request still returns
unhandled. -/
theorem io_fault_propagates_to_terminal_catch_w :
    resolveImportSpecifiers envW.resolveOne ["acc", "z"]
      = .error { code := "EACCES" }
    ∧ resolveId envW optsW pfW none "acc" (some "/a/b.js") = ⟨.unhandled, false⟩ :=
  ⟨(io_fault_propagates_to_terminal_catch envW optsW pfW "acc" "/a/b.js"
        { code := "EACCES" } (by decide) (by decide) (by decide) (by decide)
        (by decide) rfl).1 ["z"],
    (io_fault_propagates_to_terminal_catch envW optsW pfW "acc" "/a/b.js"
        { code := "EACCES" } (by decide) (by decide) (by decide) (by decide)
        (by decide) rfl).2⟩

/-- Counterexample for C6: with jail `/foo` configured (already normalized)
and a resolution that reached a real package entry point landing at
`/foobar/x` — a path outside the `/foo` directory subtree — the request is
not unhandled: the jail test is a raw string-prefix check and `/foobar/x`
starts with the string `/foo`. -/
theorem jail_prefix_not_subtree_cx :
    specSubtree "/foo" "/foobar/x" = false
    ∧ resolveId envW { optsW with jailNormalized := some "/foo" } pfW none "pkgx"
        (some "/a/b.js")
      = ⟨.record (some "/foobar/x") none, false⟩ :=
  ⟨by decide, by decide⟩

/-- C6 amended: when a jail is configured and resolution reached a real
package entry point, the request is unhandled exactly when the normalized
jail is not a string prefix of the resolved path; every path with that
string prefix — all paths inside the jail subtree, but also sibling paths
that merely extend the jail as a string — passes the check unaffected. -/
theorem jail_enforced_as_string_prefix
    (env : Env) (opts : Options) (pf : PFState) (importee r imp nj : String)
    (hne : importee ≠ ES6_BROWSER_EMPTY) (hnn : containsNullChar importee = false)
    (hres : env.resolveOne importee = .ok r) (hr : r ≠ "")
    (hnb : env.builtins importee = false) (hnbr : env.builtins r = false)
    (hrl : env.realpath r = .ok r)
    (honly : opts.only = none) (hjail : opts.jailNormalized = some nj)
    (hmo : opts.modulesOnly = false)
    (hpe : pf.hasPackageEntry = true) (hpbf : pf.packageBrowserField = none) :
    resolveId env opts pf none importee (some imp)
      = if strStartsWith r nj then
          ⟨.record (some r) (pf.hasModuleSideEffects (some r)), false⟩
        else ⟨.unhandled, false⟩ := by
  have h1 := thenOne_plain env opts pf r hpbf hr hrl
  cases hsw : strStartsWith r nj <;>
    simp [resolveId, hne, hnn, resolveIdAfterChecks, preBrowserSubstitute,
      resolveIdMain, onlyBlocks, honly, runResolve, importSpecifierList, hnb,
      ris_singleton, hres, Except.map, Bind.bind, Except.bind, h1, thenTwo, hpe,
      builtinsHasOpt, hnbr, hjail, hsw, finalStep, hmo]

/-- Witness for C6's amended claim: under jail `/foo`, a resolution landing
at `/foo/lib/inj.js` (inside the subtree, hence with the prefix) is
returned unchanged. -/
theorem jail_enforced_as_string_prefix_w :
    resolveId envW { optsW with jailNormalized := some "/foo" } pfW none "inj"
        (some "/a/b.js")
      = ⟨.record (some "/foo/lib/inj.js") none, false⟩ :=
  jail_enforced_as_string_prefix envW { optsW with jailNormalized := some "/foo" }
    pfW "inj" "/foo/lib/inj.js" "/a/b.js" "/foo" (by decide) (by decide) (by decide)
    (by decide) (by decide) (by decide) rfl rfl rfl rfl rfl rfl

/-- C2: for a request naming a reserved builtin while a same-named local
package is resolvable — the `resolve` library finds the local package for
the builtin-forcing `importee + "/"` candidate and echoes the builtin's
name back for the bare candidate — the preference matrix holds: with
`preferBuiltins` unset the request is unhandled (the builtin wins) and the
advisory warning is emitted; with an explicit `true` it is unhandled with
no warning; with an explicit `false` the local package's resolution is
returned. -/
theorem preferBuiltins_matrix
    (env : Env) (o1 o2 o3 : Options) (pf : PFState) (importee lp : String)
    (imp : Option String)
    (hb : env.builtins importee = true)
    (hne : importee ≠ ES6_BROWSER_EMPTY) (hnn : containsNullChar importee = false)
    (hdot : env.resolveOne ("./" ++ importee) = .error { code := "MODULE_NOT_FOUND" })
    (hloc : env.resolveOne (importee ++ "/") = .ok lp)
    (hself : env.resolveOne importee = .ok importee)
    (hlp : lp ≠ "") (hie : importee ≠ "")
    (hlpb : env.builtins lp = false)
    (hrl : env.realpath lp = .ok lp) (hri : env.realpath importee = .ok importee)
    (hpe : pf.hasPackageEntry = true) (hpbf : pf.packageBrowserField = none)
    (h1p : o1.preferBuiltinsOpt = none) (h1o : o1.only = none)
    (h2p : o2.preferBuiltinsOpt = some true) (h2o : o2.only = none)
    (h3p : o3.preferBuiltinsOpt = some false) (h3o : o3.only = none)
    (h3j : o3.jailNormalized = none) (h3m : o3.modulesOnly = false) :
    resolveId env o1 pf none importee imp = ⟨.unhandled, true⟩
    ∧ resolveId env o2 pf none importee imp = ⟨.unhandled, false⟩
    ∧ resolveId env o3 pf none importee imp
      = ⟨.record (some lp) (pf.hasModuleSideEffects (some lp)), false⟩ := by
  have hrisL : resolveImportSpecifiers env.resolveOne
      ((if imp = none ∧ matchesRelAbsRegex (String.singleton importee.front) = false
          then ["./" ++ importee]
        else []) ++ [importee ++ "/", importee])
      = .ok (some lp) := by
    rw [ris_pre_opt env.resolveOne importee _ imp hdot (by simp)]
    exact ris_cons_ok _ _ _ _ hloc hlp
  have hrisS : resolveImportSpecifiers env.resolveOne
      ((if imp = none ∧ matchesRelAbsRegex (String.singleton importee.front) = false
          then ["./" ++ importee]
        else []) ++ [importee])
      = .ok (some importee) := by
    rw [ris_pre_opt env.resolveOne importee _ imp hdot (by simp)]
    exact ris_cons_ok _ _ _ _ hself hie
  refine ⟨?_, ?_, ?_⟩
  · have hone := thenOne_plain env o1 pf lp hpbf hlp hrl
    simp [resolveId, hne, hnn, resolveIdAfterChecks, preBrowserSubstitute,
      resolveIdMain, onlyBlocks, h1o, runResolve, importSpecifierList, hb, h1p,
      hrisL, hone, Bind.bind, Except.bind, thenTwo, hpe, builtinsHasOpt, hlpb]
  · have hone := thenOne_plain env o2 pf importee hpbf hie hri
    simp [resolveId, hne, hnn, resolveIdAfterChecks, preBrowserSubstitute,
      resolveIdMain, onlyBlocks, h2o, runResolve, importSpecifierList, hb, h2p,
      hrisS, hone, Bind.bind, Except.bind, thenTwo, hpe, builtinsHasOpt]
  · have hone := thenOne_plain env o3 pf lp hpbf hlp hrl
    simp [resolveId, hne, hnn, resolveIdAfterChecks, preBrowserSubstitute,
      resolveIdMain, onlyBlocks, h3o, runResolve, importSpecifierList, hb, h3p,
      hrisL, hone, Bind.bind, Except.bind, thenTwo, hpe, builtinsHasOpt, hlpb,
      h3j, finalStep, h3m]

/-- Witness for C2 at the builtin name `fs` with a same-named local package
at `/proj/node_modules/fs/index.js`. -/
theorem preferBuiltins_matrix_w :
    resolveId envW optsW pfW none "fs" (some "/a/b.js") = ⟨.unhandled, true⟩
    ∧ resolveId envW { optsW with preferBuiltinsOpt := some true } pfW none "fs"
        (some "/a/b.js")
      = ⟨.unhandled, false⟩
    ∧ resolveId envW { optsW with preferBuiltinsOpt := some false } pfW none "fs"
        (some "/a/b.js")
      = ⟨.record (some "/proj/node_modules/fs/index.js") none, false⟩ :=
  preferBuiltins_matrix envW optsW { optsW with preferBuiltinsOpt := some true }
    { optsW with preferBuiltinsOpt := some false } pfW "fs"
    "/proj/node_modules/fs/index.js" (some "/a/b.js") (by decide) (by decide)
    (by decide) (by decide) (by decide) (by decide) (by decide) (by decide)
    (by decide) rfl rfl rfl rfl rfl rfl rfl rfl rfl rfl rfl rfl

end NodeResolve
